import Mathlib

/-!
Verification of the credit metering subsystem of the notesandtranslate
repository (`src/js/creditSecurity.js`, `src/js/creditStorage.js`,
`src/js/creditManager.js`, `src/js/creditIntegration.js`).

The JavaScript modules are shallowly embedded: every stateful method
becomes a pure Lean function from the explicit state (in-memory manager
state, persisted store state) and the outcomes of its storage effects to
the resulting state plus an `Except`-style result mirroring JS
throw/return.  Cryptographic primitives (SHA-256, AES-GCM) and the
random source are passed in as oracle parameters, since only their
input/output wiring matters to the properties proved here.
-/

namespace CreditSecurity

/-- One hex digit as produced by JavaScript `Number.prototype.toString(16)`:
digits `0`-`9` then lowercase `a`-`f`. -/
def hexChar (n : Nat) : Char :=
  if n < 10 then Char.ofNat (48 + n) else Char.ofNat (87 + n)

/-- JavaScript `n.toString(16)` for a non-negative integer `n`:
most-significant digit first, no leading zeros, `0` renders as `"0"`. -/
def jsToHex (n : Nat) : List Char :=
  if h : n < 16 then [hexChar n]
  else jsToHex (n / 16) ++ [hexChar (n % 16)]
  decreasing_by
    exact Nat.div_lt_self (Nat.lt_of_lt_of_le (by omega) (Nat.le_of_not_lt h)) (by omega)

/-- JavaScript `s.padStart(8, '0')` on a hex-digit string. -/
def padStart8 (cs : List Char) : List Char :=
  List.replicate (8 - cs.length) '0' ++ cs

/-- One backup code (`creditSecurity.js` lines 146-148): three fresh 32-bit
random values, each rendered as 8 hex chars (`toString(16).padStart(8,'0')`)
and concatenated by `reduce`, then `substring(0, 16).toUpperCase()`.
The random source is the oracle `rand`; code `i` consumes the values at
indices `3*i`, `3*i+1`, `3*i+2`. -/
def backupCode (rand : Nat → Nat) (i : Nat) : String :=
  let hex := padStart8 (jsToHex (rand (3 * i)))
          ++ padStart8 (jsToHex (rand (3 * i + 1)))
          ++ padStart8 (jsToHex (rand (3 * i + 2)))
  String.mk ((hex.take 16).map Char.toUpper)

/-- `CreditSecurity.generateBackupCodes(count)` (`creditSecurity.js`
lines 143-151): a loop pushing `count` codes. -/
def generateBackupCodes (count : Nat) (rand : Nat → Nat) : List String :=
  (List.range count).map (backupCode rand)

/-- A character allowed by the backup-code format regex `^[A-F0-9]{16}$`. -/
def isHexUpper (c : Char) : Bool :=
  ('A' ≤ c && c ≤ 'F') || ('0' ≤ c && c ≤ '9')

/-- JavaScript `String.prototype.toUpperCase`, character by character
(the credit code only ever feeds it ASCII hex/backup-code strings, on
which this per-character mapping is exact). -/
def jsToUpper (s : String) : String :=
  String.mk (s.toList.map Char.toUpper)

/-- `CreditSecurity.isValidBackupCode(code)` (`creditSecurity.js` line 157):
`/^[A-F0-9]{16}$/.test(code.toUpperCase())`. -/
def isValidBackupCode (code : String) : Bool :=
  ((jsToUpper code).length == 16) && (jsToUpper code).toList.all isHexUpper

/-! ### decryptData (`creditSecurity.js` lines 120-138)

`decryptData(encryptedData)` reads `encryptedData.iv` and
`encryptedData.encrypted` and converts each with `new Uint8Array(...)`
on lines 122-123, OUTSIDE the `try` block that only starts at line 125;
then, inside the `try`, it runs AES-GCM decryption, UTF-8 decoding and
`JSON.parse`, and any exception there is caught and `null` returned.
The conversions themselves can throw: for a non-Object argument `x`,
`new Uint8Array(x)` takes the length path `ToIndex(ToNumber(x))`
(ECMA-262), which throws a `RangeError` when the number truncates below
`0` or to `2^53` or above — so `new Uint8Array(-1)` and
`new Uint8Array("-1")` throw, while `new Uint8Array("abc")` is the
empty array (`ToNumber("abc") = NaN`, `ToIndex NaN = 0`), not an array
of `"abc".length` zeros.  The AES-GCM primitive and the JSON parser are
oracles. -/

/-- A JavaScript number as far as `ToIndex`/`ToUint8` consult it: `NaN`,
an infinity, or a finite double represented by its exact truncation
toward zero `t` (every finite double truncates to an exact integer, so
this loses nothing those operations read; note `finite 0` covers both
zeroes and every fraction in `(-1, 1)`). -/
inductive JsNumber
  | nan
  | posInf
  | negInf
  | finite (t : Int)
deriving DecidableEq

/-- A JavaScript value sitting in the `iv` / `encrypted` field slot:
`absent` is `undefined` or `null` (both convert to the empty array),
`arr` an array object of numeric elements (the iterable path), and
`num v` any non-Object primitive — a number, boolean or string — taken
through `ToNumber` to the number `v` (so the string `"-1"` is
`num (.finite (-1))`, `"abc"` is `num .nan`, `true` is
`num (.finite 1)`; the binary64 string parse itself is carried by the
constructor rather than re-implemented). -/
inductive JsField
  | absent
  | arr (ns : List JsNumber)
  | num (v : JsNumber)
deriving DecidableEq

/-- A JavaScript exception escaping a function boundary. -/
inductive JsError
  | typeError
  | rangeError
deriving DecidableEq

/-- ECMA-262 `ToUint8`: non-finite numbers give `+0`, a finite number is
truncated (already done in `JsNumber.finite`) and taken modulo `2^8`
(`Int.emod` keeps the result in `[0, 256)`, matching JS on negatives:
`ToUint8(-1) = 255`). -/
def toUint8 : JsNumber → Nat
  | .nan => 0
  | .posInf => 0
  | .negInf => 0
  | .finite t => (t % 256).toNat

/-- ECMA-262 `ToIndex` composed with `ToIntegerOrInfinity`: `NaN` gives
`0`, the infinities throw a `RangeError`, and a finite number throws
unless its truncation lies in `[0, 2^53)`. -/
def toIndex : JsNumber → Except JsError Nat
  | .nan => .ok 0
  | .posInf => .error .rangeError
  | .negInf => .error .rangeError
  | .finite t =>
    if t < 0 then .error .rangeError
    else if 2 ^ 53 ≤ t then .error .rangeError
    else .ok t.toNat

/-- `new Uint8Array(x)` on a field value: `undefined`/`null` give the
empty array (`ToIndex(ToNumber(·)) = 0`), an array object is read
elementwise through `ToUint8`, and any other primitive is a LENGTH —
`ToIndex(ToNumber(x))` zero bytes, throwing the `RangeError` that
`ToIndex` throws (invalid typed-array length). -/
def toUint8Array : JsField → Except JsError (List Nat)
  | .absent => .ok []
  | .arr ns => .ok (ns.map toUint8)
  | .num v =>
    match toIndex v with
    | .error e => .error e
    | .ok n => .ok (List.replicate n 0)

/-- The object argument of `decryptData` with its two field slots. -/
structure EncPayload where
  iv : JsField
  encrypted : JsField
deriving DecidableEq

/-- Decrypted balance-record contents as far as the credit code reads
them (`id`/`lastModified` are never consulted by the properties below). -/
structure BalanceRecord where
  balance : Int
  deviceFingerprint : String
  timestamp : Nat
  lastModified : Nat
  integrityHash : String
deriving DecidableEq

/-- `CreditSecurity.decryptData` (`creditSecurity.js` lines 120-138).
`aesDecrypt iv cipher` is the AES-GCM oracle (`none` = auth-tag failure
or any other rejection of the primitive), `parse` the `JSON.parse`
oracle (`none` = parse exception).  The argument itself may be
`null`/`undefined` (`none`), in which case the field access
`encryptedData.iv` on line 122 throws a `TypeError` — and the two
`new Uint8Array(...)` conversions on lines 122-123 also sit OUTSIDE the
`try` block, so a conversion `RangeError` escapes too.  Only failures of
decryption, decoding and parsing are caught and turned into `null`. -/
def decryptData (aesDecrypt : List Nat → List Nat → Option String)
    (parse : String → Option BalanceRecord)
    (encryptedData : Option EncPayload) : Except JsError (Option BalanceRecord) :=
  match encryptedData with
  | none => .error .typeError
  | some payload =>
    match toUint8Array payload.iv with
    | .error e => .error e
    | .ok iv =>
      match toUint8Array payload.encrypted with
      | .error e => .error e
      | .ok encrypted =>
        match aesDecrypt iv encrypted with
        | none => .ok none
        | some decryptedText =>
          match parse decryptedText with
          | none => .ok none
          | some data => .ok (some data)

/-! ### Integrity hashing (`creditSecurity.js` lines 163-178) -/

/-- The `JSON.stringify({balance, deviceFingerprint, timestamp})` string
built on lines 164-168.  The braces are literal characters. -/
def integrityPreimage (balance : Int) (fp : String) (timestamp : Nat) : String :=
  "\x7b\"balance\":" ++ toString balance
    ++ ",\"deviceFingerprint\":\"" ++ fp
    ++ "\",\"timestamp\":" ++ toString timestamp ++ "\x7d"

/-- `CreditSecurity.createIntegrityHash(creditData)` (lines 163-170):
hashes the triple of the record's `balance`, the LIVE device fingerprint
from `generateDeviceFingerprint()` (not the record's stored
`deviceFingerprint` field), and the record's `timestamp`.  `hash` is the
SHA-256 oracle and `liveFp` the cached process fingerprint. -/
def createIntegrityHash (hash : String → String) (liveFp : String)
    (creditData : BalanceRecord) : String :=
  hash (integrityPreimage creditData.balance liveFp creditData.timestamp)

/-- `CreditSecurity.verifyIntegrity(creditData, expectedHash)`
(lines 175-178): recompute and compare. -/
def verifyIntegrity (hash : String → String) (liveFp : String)
    (creditData : BalanceRecord) (expectedHash : String) : Bool :=
  createIntegrityHash hash liveFp creditData == expectedHash

end CreditSecurity

namespace CreditStorage

/-- Outcome of one IndexedDB request: `onsuccess` fired, or `onerror`
fired and the promise rejected. -/
inductive StoreOutcome
  | ok
  | fail
deriving DecidableEq

/-! ### getCreditBalance (`creditStorage.js` lines 110-149) -/

/-- What the `store.get('main')` request delivered: the encrypted record
(with its ciphertext of abstract shape `Cipher`), no record, or a request
error. -/
inductive ReadOutcome (Cipher : Type)
  | found (data : Cipher)
  | absent
  | ioError

/-- The four mutually distinct results `getCreditBalance` can deliver to
its caller: resolution with a record, resolution with `null` (absent),
or rejection with one of three distinct error messages. -/
inductive GetBalanceResult
  | ok (record : Option CreditSecurity.BalanceRecord)
  | errDecrypt      -- reject(new Error('Failed to decrypt credit data'))
  | errIntegrity    -- reject(new Error('Credit data integrity check failed'))
  | errFetch        -- reject(new Error('Failed to fetch credit balance'))
deriving DecidableEq

/-- `CreditStorage.getCreditBalance()` (`creditStorage.js` lines 110-149):
on a successful read of nothing, resolve `null`; on a read of a record,
decrypt (a `null` from `decryptData` rejects with the decryption error),
then verify integrity (a mismatch rejects with the integrity error);
a failed read rejects with the fetch error.  `decrypt` is the
`security.decryptData` boundary as seen through the `try` on storage
lines 122-144: the sentinel `null` for caught decryption failures (a
`decryptData` exception would be caught there too and rejected with a
distinct wrapper message, a path elided here that cannot conflate the
three outcomes below).  `verify` is the `security.verifyIntegrity`
boundary, called on the decrypted record and its own `integrityHash`
field. -/
def getCreditBalance {Cipher : Type}
    (decrypt : Cipher → Option CreditSecurity.BalanceRecord)
    (verify : CreditSecurity.BalanceRecord → String → Bool)
    (read : ReadOutcome Cipher) : GetBalanceResult :=
  match read with
  | .ioError => .errFetch
  | .absent => .ok none
  | .found data =>
    match decrypt data with
    | none => .errDecrypt
    | some decryptedData =>
      if verify decryptedData decryptedData.integrityHash then
        .ok (some decryptedData)
      else
        .errIntegrity

/-! ### Backup codes (`creditStorage.js` lines 203-252) -/

/-- A record of the `backupCodes` object store (keyPath `code`). -/
structure BackupCodeRecord where
  code : String
  created : Nat
  used : Bool
  usedAt : Option Nat
deriving DecidableEq

/-- The `backupCodes` store contents; `store.get k` returns the record
whose key equals `k` (modelled as the first list entry with that code;
IndexedDB keys are unique, which the `put`-based writer maintains). -/
def findCode (store : List BackupCodeRecord) (key : String) :
    Option BackupCodeRecord :=
  store.find? (fun r => r.code == key)

/-- `store.put r` keyed on `r.code`: replace the record with that key. -/
def putCode (store : List BackupCodeRecord) (r : BackupCodeRecord) :
    List BackupCodeRecord :=
  store.map (fun x => if x.code == r.code then r else x)

/-- `CreditStorage.useBackupCode(code)` (`creditStorage.js` lines
224-252): look up by `code.toUpperCase()`; resolve `false` when absent
or already used; otherwise mark `used = true`, record `usedAt`, put the
record back and resolve `true`.  Returns the resolved boolean together
with the resulting store contents. -/
def useBackupCode (store : List BackupCodeRecord) (code : String)
    (now : Nat) : Bool × List BackupCodeRecord :=
  match findCode store (CreditSecurity.jsToUpper code) with
  | none => (false, store)
  | some result =>
    if result.used then (false, store)
    else
      let updated := { result with used := true, usedAt := some now }
      (true, putCode store updated)

end CreditStorage

namespace CreditManager

open CreditStorage (StoreOutcome)

/-- In-memory state of a `CreditManager` instance (`creditManager.js`
lines 27-36; the listener array is elided — `notifyBalanceChange`
catches every listener exception and never touches the balance). -/
structure CMState where
  currentBalance : Int
  deviceFingerprint : Option String
  isInitialized : Bool
deriving DecidableEq

/-- A record of the `transactions` object store as written by
`logTransaction` (`creditStorage.js` lines 154-171), keeping the fields
the claims mention.  `previousBalance`/`newBalance` are the metadata the
manager attaches. -/
structure Txn where
  type : String
  amount : Int
  operation : String
  previousBalance : Int
  newBalance : Int
deriving DecidableEq

/-- Persisted store state seen through the manager: the singleton
`'main'` balance record's balance (encryption is orthogonal here, see
the `CreditStorage` section) and the append-only transaction log. -/
structure StoreState where
  balance : Option Int
  transactions : List Txn
deriving DecidableEq

/-- The success object returned by `deductCredits` / `addCredits` /
`resetCredits`. -/
structure MutResult where
  previousBalance : Int
  newBalance : Int
  amount : Int
deriving DecidableEq

/-- `CreditManager.hasSufficientCredits(cost)` (`creditManager.js`
line 138): `this.currentBalance >= cost`. -/
def hasSufficientCredits (s : CMState) (cost : Int) : Bool :=
  s.currentBalance ≥ cost

/-- `CreditManager.getCost(operation)` (`creditManager.js` lines
144-155); an unknown operation throws. -/
def getCost : String → Except String Int
  | "polish" => .ok 3
  | "translate" => .ok 7
  | "complete" => .ok 10
  | operation => .error ("Unknown operation: " ++ operation)

/-- `CreditManager.deductCredits(cost, operation, metadata)`
(`creditManager.js` lines 160-195).  `saveOut` / `logOut` are the
outcomes of the `saveBalance` and `logTransaction` storage requests.
Mirrors the source exactly: insufficiency throws before any mutation;
otherwise the cached balance is decremented, the new balance persisted,
the transaction logged; any failure in that `try` block rolls the cached
balance back to `previousBalance` and rethrows — note the persisted
record is NOT rolled back when only the log append failed. -/
def deductCredits (s : CMState) (store : StoreState) (cost : Int)
    (operation : String) (saveOut logOut : StoreOutcome) :
    Except String MutResult × CMState × StoreState :=
  if !hasSufficientCredits s cost then
    (.error ("Insufficient credits. Required: " ++ toString cost
        ++ ", Available: " ++ toString s.currentBalance), s, store)
  else
    let previousBalance := s.currentBalance
    let s1 := { s with currentBalance := previousBalance - cost }
    match saveOut with
    | .fail =>
      (.error "Failed to deduct credits: Failed to save credit balance",
        { s1 with currentBalance := previousBalance }, store)
    | .ok =>
      let store1 := { store with balance := some s1.currentBalance }
      match logOut with
      | .fail =>
        (.error "Failed to deduct credits: Failed to log transaction",
          { s1 with currentBalance := previousBalance }, store1)
      | .ok =>
        let store2 := { store1 with transactions := store1.transactions
          ++ [⟨"deduction", cost, operation, previousBalance, s1.currentBalance⟩] }
        (.ok ⟨previousBalance, s1.currentBalance, cost⟩, s1, store2)

/-- `CreditManager.addCredits(amount, source, metadata)`
(`creditManager.js` lines 200-231): same shape as `deductCredits` but
with no precondition whatsoever on `amount`. -/
def addCredits (s : CMState) (store : StoreState) (amount : Int)
    (source : String) (saveOut logOut : StoreOutcome) :
    Except String MutResult × CMState × StoreState :=
  let previousBalance := s.currentBalance
  let s1 := { s with currentBalance := previousBalance + amount }
  match saveOut with
  | .fail =>
    (.error "Failed to add credits: Failed to save credit balance",
      { s1 with currentBalance := previousBalance }, store)
  | .ok =>
    let store1 := { store with balance := some s1.currentBalance }
    match logOut with
    | .fail =>
      (.error "Failed to add credits: Failed to log transaction",
        { s1 with currentBalance := previousBalance }, store1)
    | .ok =>
      let store2 := { store1 with transactions := store1.transactions
        ++ [⟨"purchase", amount, source, previousBalance, s1.currentBalance⟩] }
      (.ok ⟨previousBalance, s1.currentBalance, amount⟩, s1, store2)

/-- `CreditManager.resetCredits(newBalance)` (`creditManager.js` lines
326-342): sets the cached balance, saves, logs a `reset` transaction.
No `try`/`catch` — a persistence failure propagates with the cached
balance left at `newBalance`. -/
def resetCredits (s : CMState) (store : StoreState) (newBalance : Int)
    (saveOut logOut : StoreOutcome) :
    Except String MutResult × CMState × StoreState :=
  let previousBalance := s.currentBalance
  let s1 := { s with currentBalance := newBalance }
  match saveOut with
  | .fail => (.error "Failed to save credit balance", s1, store)
  | .ok =>
    let store1 := { store with balance := some newBalance }
    match logOut with
    | .fail => (.error "Failed to log transaction", s1, store1)
    | .ok =>
      let store2 := { store1 with transactions := store1.transactions
        ++ [⟨"reset", newBalance - previousBalance, "admin_reset",
             previousBalance, newBalance⟩] }
      (.ok ⟨previousBalance, newBalance, newBalance - previousBalance⟩, s1, store2)

/-- The `credits` field of `CREDIT_PACKAGES[packageKey]`
(`creditManager.js` lines 19-24); `none` when the key is not in the
catalog. -/
def packageCredits : String → Option Int
  | "SMALL" => some 100
  | "MEDIUM" => some 250
  | "LARGE" => some 500
  | "XL" => some 1000
  | _ => none

/-- `CreditManager.purchaseCredits(packageKey, paymentMethod)`
(`creditManager.js` lines 236-274): validates the package, runs the demo
payment simulator (which always resolves) or rejects any other payment
method, then adds the package's credits. -/
def purchaseCredits (s : CMState) (store : StoreState)
    (packageKey paymentMethod : String) (saveOut logOut : StoreOutcome) :
    Except String MutResult × CMState × StoreState :=
  match packageCredits packageKey with
  | none => (.error ("Invalid credit package: " ++ packageKey), s, store)
  | some credits =>
    if paymentMethod == "demo" then
      addCredits s store credits "purchase" saveOut logOut
    else
      (.error "Payment processing not yet implemented", s, store)

/-- `CreditManager.clearAllData()` (`creditManager.js` lines 396-401):
wipes the store then zeroes the cached balance; a storage failure
propagates before the cached balance is touched. -/
def clearAllData (s : CMState) (store : StoreState)
    (clearOut : StoreOutcome) : Except String Unit × CMState × StoreState :=
  match clearOut with
  | .fail => (.error "Failed to clear credits", s, store)
  | .ok => (.ok (), { s with currentBalance := 0 }, ⟨none, []⟩)

/-- A storage write performed during initialization (used to state that
the second `initialize()` performs none). -/
inductive WriteOp
  | saveBalance (balance : Int)
deriving DecidableEq

/-- `CreditManager.initialize()` (`creditManager.js` lines 41-63) with
`loadBalance` (lines 68-83) inlined.  `openOut` is the outcome of
`storage.init()`, `readErr` whether `getCreditBalance` rejected
(decryption/integrity/fetch failure), `saveOut` the outcome of the
default-balance save when one is needed, `fp` the device fingerprint.
A completed run returns the new states plus the list of storage writes
performed; the guard on line 42 makes a call after completion return
immediately. (`requestPersistentStorage` never throws — its failure path
is caught and returns `false` — so it is elided.) -/
def initializeManager (s : CMState) (store : StoreState)
    (openOut saveOut : StoreOutcome) (readErr : Bool) (fp : String) :
    Except String (CMState × StoreState × List WriteOp) :=
  if s.isInitialized then .ok (s, store, [])
  else
    match openOut with
    | .fail => .error "Failed to open credits database"
    | .ok =>
      let s0 := { s with deviceFingerprint := some fp }
      if readErr then
        match saveOut with
        | .fail => .error "Failed to save credit balance"
        | .ok => .ok ({ s0 with currentBalance := 0, isInitialized := true },
            { store with balance := some 0 }, [.saveBalance 0])
      else
        match store.balance with
        | some b => .ok ({ s0 with currentBalance := b, isInitialized := true },
            store, [])
        | none =>
          match saveOut with
          | .fail => .error "Failed to save credit balance"
          | .ok => .ok ({ s0 with currentBalance := 0, isInitialized := true },
              { store with balance := some 0 }, [.saveBalance 0])

/-- `CreditManager.generateBackupCodes()` (`creditManager.js` lines
306-310): `security.generateBackupCodes(5)`, saved to the store and
returned (the `saveBackupCodes` write does not alter the codes). -/
def generateBackupCodes (rand : Nat → Nat) : List String :=
  CreditSecurity.generateBackupCodes 5 rand

/-- One Credit Manager mutation together with the outcomes of its
storage effects, for reasoning about arbitrary operation sequences. -/
inductive CMOp
  | deduct (cost : Int) (operation : String) (saveOut logOut : StoreOutcome)
  | add (amount : Int) (source : String) (saveOut logOut : StoreOutcome)
  | reset (newBalance : Int) (saveOut logOut : StoreOutcome)
  | purchase (packageKey paymentMethod : String) (saveOut logOut : StoreOutcome)
  | clear (clearOut : StoreOutcome)

/-- Run one mutation, keeping the resulting states (the thrown/returned
value is dropped: the balance afterwards is what the invariants are
about). -/
def runOp (p : CMState × StoreState) : CMOp → CMState × StoreState
  | .deduct cost operation saveOut logOut =>
    (deductCredits p.1 p.2 cost operation saveOut logOut).2
  | .add amount source saveOut logOut =>
    (addCredits p.1 p.2 amount source saveOut logOut).2
  | .reset newBalance saveOut logOut =>
    (resetCredits p.1 p.2 newBalance saveOut logOut).2
  | .purchase packageKey paymentMethod saveOut logOut =>
    (purchaseCredits p.1 p.2 packageKey paymentMethod saveOut logOut).2
  | .clear clearOut =>
    (clearAllData p.1 p.2 clearOut).2

/-- Run a sequence of mutations. -/
def runOps (ops : List CMOp) (p : CMState × StoreState) : CMState × StoreState :=
  ops.foldl runOp p

/-- Arguments under which a mutation is balance-safe: `addCredits` run
with a non-negative amount and `resetCredits` with a non-negative target
(the other operations carry no argument that can push the balance
negative). -/
def wfOp : CMOp → Prop
  | .add amount _ _ _ => 0 ≤ amount
  | .reset newBalance _ _ => 0 ≤ newBalance
  | _ => True

end CreditManager

namespace CreditIntegration

open CreditManager (CMState StoreState)
open CreditStorage (StoreOutcome)

/-- The outcome of one invocation of an async function at the wrapper
boundary: resolution with a value (`none` models `null`/`undefined`) or
rejection with an error message. -/
inductive FOut (Val : Type)
  | ret (v : Option Val)
  | thr (msg : String)
deriving DecidableEq

/-- Whether `pat` occurs as a contiguous run in `l` — JavaScript
`String.prototype.includes`. -/
def includesSub (pat : List Char) : List Char → Bool
  | [] => pat.isEmpty
  | c :: rest => pat.isPrefixOf (c :: rest) || includesSub pat rest

/-- `msg.includes('credits') || msg.includes('Credits')`
(`creditIntegration.js` line 80). -/
def mentionsCredits (msg : String) : Bool :=
  includesSub "credits".toList msg.toList || includesSub "Credits".toList msg.toList

/-- The `catch` block of the wrapped function (`creditIntegration.js`
lines 76-92): a credit-related error is rethrown; any other error causes
the original function to be invoked (again) — its result returned, its
failure rethrown.  `idx` is the number of invocations of `f` made so
far. -/
def wrapCatch {Val : Type} (f : Nat → FOut Val) (idx : Nat) (msg : String)
    (cm : CMState) (store : StoreState) : FOut Val × CMState × StoreState :=
  if mentionsCredits msg then (.thr msg, cm, store)
  else
    match f idx with
    | .ret v => (.ret v, cm, store)
    | .thr msg2 => (.thr msg2, cm, store)

/-- One call of the function installed by
`CreditIntegration.wrapFunction` (`creditIntegration.js` lines 37-93),
with the wrapped async function `f` given by its per-invocation
outcomes, the user-confirmation result, and the storage outcomes for the
eventual deduction.  Mirrors the source: cost lookup and the
insufficiency throw happen inside the `try`, so both route through the
`catch`; a declined confirmation returns `null`; a `null`/`undefined`
result skips deduction; a deduction error (whose message always
mentions credits) is rethrown by the `catch`. -/
def wrapFunctionCall {Val : Type} (operation : String) (cm : CMState)
    (store : StoreState) (confirmed : Bool) (f : Nat → FOut Val)
    (saveOut logOut : StoreOutcome) : FOut Val × CMState × StoreState :=
  match CreditManager.getCost operation with
  | .error msg => wrapCatch f 0 msg cm store
  | .ok cost =>
    if !CreditManager.hasSufficientCredits cm cost then
      wrapCatch f 0 ("Insufficient credits for " ++ operation ++ ". Need "
        ++ toString cost ++ " credits, have "
        ++ toString cm.currentBalance ++ ".") cm store
    else if !confirmed then (.ret none, cm, store)
    else
      match f 0 with
      | .thr msg => wrapCatch f 1 msg cm store
      | .ret none => (.ret none, cm, store)
      | .ret (some v) =>
        match CreditManager.deductCredits cm store cost operation saveOut logOut with
        | (.error dmsg, cm1, store1) => wrapCatch f 1 dmsg cm1 store1
        | (.ok _, cm1, store1) => (.ret (some v), cm1, store1)

end CreditIntegration

/-! ## Helper lemmas about the backup-code store -/

/-- Replacing (via `put`) the record that a key lookup found leaves the
lookup returning the replacement, for any replacement carrying the same
key. -/
lemma findCode_putCode {store : List CreditStorage.BackupCodeRecord}
    {key : String} {r r' : CreditStorage.BackupCodeRecord}
    (hfind : CreditStorage.findCode store key = some r)
    (hcode : r'.code = r.code) :
    CreditStorage.findCode (CreditStorage.putCode store r') key = some r' := by
  induction store with
  | nil => simp [CreditStorage.findCode] at hfind
  | cons y t ih =>
    unfold CreditStorage.findCode CreditStorage.putCode at *
    simp only [List.map_cons]
    cases hy : (y.code == key) with
    | true =>
      simp only [List.find?, hy] at hfind
      have hry : y = r := by injection hfind
      have hhead : (y.code == r'.code) = true := by
        simp only [beq_iff_eq]
        rw [hcode, hry]
      have hkey : (r'.code == key) = true := by
        simp only [beq_iff_eq] at hy ⊢
        rw [hcode, ← hry]
        exact hy
      simp [List.find?, hhead, hkey]
    | false =>
      simp only [List.find?, hy] at hfind
      have hr : (r.code == key) = true := by
        have hp := List.find?_some hfind
        simpa using hp
      have hrq : r.code = key := by simpa using hr
      have hhead : (y.code == r'.code) = false := by
        rw [hcode, hrq]
        exact hy
      simp only [hhead, Bool.false_eq_true, if_false, ite_false]
      simp only [List.find?, hy]
      exact ih hfind

/-! ## Claim C7 -/

/-- C7: a stored backup code (looked up by its uppercase-normalised
form) is consumed exactly once: an unused code yields `true` and is
flipped to `used` with `usedAt` recorded; every later attempt on the
same code yields `false` and leaves the store untouched; an already-used
or absent code yields `false` with the store untouched and no error
thrown (the function returns normally). -/
theorem useBackupCode_consumed_exactly_once :
    (∀ store code now r,
        CreditStorage.findCode store (CreditSecurity.jsToUpper code) = some r → r.used = false →
        CreditStorage.useBackupCode store code now
            = (true, CreditStorage.putCode store
                { r with used := true, usedAt := some now })
          ∧ ∀ now2, CreditStorage.useBackupCode
              (CreditStorage.useBackupCode store code now).2 code now2
            = (false, (CreditStorage.useBackupCode store code now).2))
  ∧ (∀ store code now r,
      CreditStorage.findCode store (CreditSecurity.jsToUpper code) = some r → r.used = true →
      CreditStorage.useBackupCode store code now = (false, store))
  ∧ (∀ store code now,
      CreditStorage.findCode store (CreditSecurity.jsToUpper code) = none →
      CreditStorage.useBackupCode store code now = (false, store)) := by
  have hused : ∀ store code now r,
      CreditStorage.findCode store (CreditSecurity.jsToUpper code) = some r → r.used = true →
      CreditStorage.useBackupCode store code now = (false, store) := by
    intro store code now r hfind hu
    simp [CreditStorage.useBackupCode, hfind, hu]
  have hfresh : ∀ store code now r,
      CreditStorage.findCode store (CreditSecurity.jsToUpper code) = some r → r.used = false →
      CreditStorage.useBackupCode store code now
        = (true, CreditStorage.putCode store
            { r with used := true, usedAt := some now }) := by
    intro store code now r hfind hu
    simp [CreditStorage.useBackupCode, hfind, hu]
  refine ⟨?_, hused, ?_⟩
  · intro store code now r hfind hu
    refine ⟨hfresh store code now r hfind hu, ?_⟩
    intro now2
    rw [hfresh store code now r hfind hu]
    exact hused _ code now2 _ (findCode_putCode hfind rfl) rfl
  · intro store code now hfind
    simp [CreditStorage.useBackupCode, hfind]

/-- C7 witness: the stored code `DEADBEEFDEADBEEF` presented in
lowercase is accepted once; the second attempt returns `false` and does
not alter the store; an absent code returns `false`. -/
theorem useBackupCode_consumed_exactly_once_witness :
    (CreditStorage.useBackupCode [⟨"DEADBEEFDEADBEEF", 1, false, none⟩]
        "deadbeefdeadbeef" 5
      = (true, [⟨"DEADBEEFDEADBEEF", 1, true, some 5⟩])
    ∧ CreditStorage.useBackupCode [⟨"DEADBEEFDEADBEEF", 1, true, some 5⟩]
        "deadbeefdeadbeef" 9
      = (false, [⟨"DEADBEEFDEADBEEF", 1, true, some 5⟩]))
    ∧ CreditStorage.useBackupCode [⟨"DEADBEEFDEADBEEF", 1, false, none⟩]
        "0123456789ABCDEF" 5
      = (false, [⟨"DEADBEEFDEADBEEF", 1, false, none⟩]) := by
  have h := useBackupCode_consumed_exactly_once
  refine ⟨⟨?_, ?_⟩, ?_⟩
  · exact (h.1 [⟨"DEADBEEFDEADBEEF", 1, false, none⟩] "deadbeefdeadbeef" 5
      ⟨"DEADBEEFDEADBEEF", 1, false, none⟩ (by decide) rfl).1
  · exact h.2.1 [⟨"DEADBEEFDEADBEEF", 1, true, some 5⟩] "deadbeefdeadbeef" 9
      ⟨"DEADBEEFDEADBEEF", 1, true, some 5⟩ (by decide) rfl
  · exact h.2.2 [⟨"DEADBEEFDEADBEEF", 1, false, none⟩] "0123456789ABCDEF" 5
      (by decide)

/-! ## Claim C8 -/

/-- C8: a second `initialize()` call after one has completed is a
no-op — it returns the very same in-memory state and store, yields the
same balance, and performs no storage writes (in particular it does not
repeat the default-balance persistence of the first call). -/
theorem initializeManager_idempotent
    (s : CreditManager.CMState) (store : CreditManager.StoreState)
    (openOut saveOut : CreditStorage.StoreOutcome) (readErr : Bool)
    (fp : String) (s1 : CreditManager.CMState)
    (store1 : CreditManager.StoreState) (w1 : List CreditManager.WriteOp)
    (h : CreditManager.initializeManager s store openOut saveOut readErr fp
          = .ok (s1, store1, w1))
    (openOut2 saveOut2 : CreditStorage.StoreOutcome) (readErr2 : Bool)
    (fp2 : String) :
    CreditManager.initializeManager s1 store1 openOut2 saveOut2 readErr2 fp2
      = .ok (s1, store1, []) := by
  have hinit : s1.isInitialized = true := by
    by_cases hi : s.isInitialized = true
    · simp only [CreditManager.initializeManager, hi, if_true,
        Except.ok.injEq, Prod.mk.injEq] at h
      simp_all
    · cases openOut with
      | fail => simp [CreditManager.initializeManager, hi] at h
      | ok =>
        cases readErr with
        | true =>
          cases saveOut with
          | fail => simp [CreditManager.initializeManager, hi] at h
          | ok =>
            simp [CreditManager.initializeManager, hi, Prod.mk.injEq] at h
            first
            | rfl
            | (obtain ⟨h1, -, -⟩ := h
               first
               | rw [← h1]
               | rw [h1])
        | false =>
          cases hb : store.balance with
          | some b =>
            simp [CreditManager.initializeManager, hi, hb, Prod.mk.injEq] at h
            first
            | rfl
            | (obtain ⟨h1, -, -⟩ := h
               first
               | rw [← h1]
               | rw [h1])
          | none =>
            cases saveOut with
            | fail => simp [CreditManager.initializeManager, hi, hb] at h
            | ok =>
              simp [CreditManager.initializeManager, hi, hb, Prod.mk.injEq] at h
              first
              | rfl
              | (obtain ⟨h1, -, -⟩ := h
                 first
                 | rw [← h1]
                 | rw [h1])
  simp [CreditManager.initializeManager, hinit]

/-- C8 witness: a fresh-install first call (no record, default balance
persisted) followed by a second call; the second returns the same
state with an empty write list. -/
theorem initializeManager_idempotent_witness :
    CreditManager.initializeManager ⟨0, some "fp", true⟩ ⟨some 0, []⟩
        .ok .ok false "fp2"
      = .ok (⟨0, some "fp", true⟩, ⟨some 0, []⟩, []) :=
  initializeManager_idempotent ⟨0, none, false⟩ ⟨none, []⟩ .ok .ok false "fp"
    ⟨0, some "fp", true⟩ ⟨some 0, []⟩ [.saveBalance 0] rfl .ok .ok false "fp2"

/-! ## Helper lemmas about hex rendering (for C9) -/

/-- Every character of a JS hex rendering is a hex digit character. -/
lemma jsToHex_chars (n : Nat) :
    ∀ c ∈ CreditSecurity.jsToHex n, ∃ d, d < 16 ∧ c = CreditSecurity.hexChar d := by
  induction n using Nat.strong_induction_on with
  | _ n ih =>
    rw [CreditSecurity.jsToHex]
    split
    · next h =>
      intro c hc
      simp only [List.mem_singleton] at hc
      exact ⟨n, h, hc⟩
    · next h =>
      intro c hc
      rw [List.mem_append] at hc
      cases hc with
      | inl hc =>
        exact ih (n / 16) (Nat.div_lt_self (by omega) (by omega)) c hc
      | inr hc =>
        simp only [List.mem_singleton] at hc
        exact ⟨n % 16, Nat.mod_lt _ (by omega), hc⟩

/-- `n.toString(16)` has at most `k` digits when `n < 16 ^ k`. -/
lemma jsToHex_length_le :
    ∀ k n : Nat, 1 ≤ k → n < 16 ^ k → (CreditSecurity.jsToHex n).length ≤ k := by
  intro k
  induction k with
  | zero => intro n hk; omega
  | succ k ih =>
    intro n _ hn
    rw [CreditSecurity.jsToHex]
    split
    · next h => simp
    · next h =>
      have hk1 : 1 ≤ k := by
        rcases Nat.eq_zero_or_pos k with hk0 | hk0
        · subst hk0
          have h16lt : n < 16 := by simpa using hn
          exact absurd h16lt h
        · omega
      have hdiv : n / 16 < 16 ^ k := by
        have hlt : n < 16 ^ k * 16 := by
          rw [← pow_succ]
          exact hn
        exact (Nat.div_lt_iff_lt_mul (by omega)).mpr hlt
      have hrec := ih (n / 16) hk1 hdiv
      simp only [List.length_append, List.length_singleton]
      omega

/-- Padding a string of at most 8 characters to width 8 gives exactly 8. -/
lemma padStart8_length (cs : List Char) (h : cs.length ≤ 8) :
    (CreditSecurity.padStart8 cs).length = 8 := by
  simp [CreditSecurity.padStart8]
  omega

/-- Every character of a padded string is the pad `'0'` or came from the
original string. -/
lemma padStart8_chars (cs : List Char) (c : Char)
    (hc : c ∈ CreditSecurity.padStart8 cs) : c = '0' ∨ c ∈ cs := by
  simp only [CreditSecurity.padStart8, List.mem_append, List.mem_replicate] at hc
  rcases hc with h | h
  · exact Or.inl h.2
  · exact Or.inr h

/-- Uppercasing any lowercase hex digit yields an `A-F0-9` character. -/
lemma hexChar_toUpper_isHexUpper :
    ∀ d, d < 16 → CreditSecurity.isHexUpper (CreditSecurity.hexChar d).toUpper = true := by
  decide

/-- One backup code is sixteen uppercase hexadecimal characters. -/
lemma backupCode_format (rand : Nat → Nat) (hr : ∀ i, rand i < 2 ^ 32) (i : Nat) :
    (CreditSecurity.backupCode rand i).length = 16
  ∧ (CreditSecurity.backupCode rand i).toList.all CreditSecurity.isHexUpper = true := by
  have h16 : (2 : Nat) ^ 32 = 16 ^ 8 := by norm_num
  have hp : ∀ j, (CreditSecurity.padStart8 (CreditSecurity.jsToHex (rand j))).length = 8 := by
    intro j
    exact padStart8_length _ (jsToHex_length_le 8 _ (by omega) (h16 ▸ hr j))
  unfold CreditSecurity.backupCode
  have hlen : (CreditSecurity.padStart8 (CreditSecurity.jsToHex (rand (3 * i)))
          ++ CreditSecurity.padStart8 (CreditSecurity.jsToHex (rand (3 * i + 1)))
          ++ CreditSecurity.padStart8 (CreditSecurity.jsToHex (rand (3 * i + 2)))).length = 24 := by
    simp [List.length_append, hp]
  constructor
  · show (String.mk _).length = 16
    simp only [String.length, List.length_map, List.length_take, hlen]
    omega
  · show List.all (String.mk _).toList _ = true
    rw [List.all_eq_true]
    intro c hc
    simp only [String.toList] at hc
    rw [List.mem_map] at hc
    obtain ⟨c', hc', rfl⟩ := hc
    have hc'' := List.mem_of_mem_take hc'
    have horig : c' = '0' ∨ ∃ d, d < 16 ∧ c' = CreditSecurity.hexChar d := by
      rw [List.mem_append] at hc''
      rcases hc'' with hc'' | hc''
      · rw [List.mem_append] at hc''
        rcases hc'' with hc'' | hc''
        all_goals
          rcases padStart8_chars _ _ hc'' with h0 | hmem
          · exact Or.inl h0
          · exact Or.inr (jsToHex_chars _ _ hmem)
      · rcases padStart8_chars _ _ hc'' with h0 | hmem
        · exact Or.inl h0
        · exact Or.inr (jsToHex_chars _ _ hmem)
    rcases horig with rfl | ⟨d, hd, rfl⟩
    · decide
    · exact hexChar_toUpper_isHexUpper d hd

/-! ## Claim C9 -/

/-- C9: for every count `n` and every 32-bit random source,
`CreditSecurity.generateBackupCodes(n)` returns exactly `n` codes, each
a 16-character string over `A-F0-9` (the `^[A-F0-9]{16}$` format), and
the Credit Manager's `generateBackupCodes()` returns exactly the 5 such
codes produced by the provider. -/
theorem generateBackupCodes_count_and_format (count : Nat) (rand : Nat → Nat)
    (hr : ∀ i, rand i < 2 ^ 32) :
    (CreditSecurity.generateBackupCodes count rand).length = count
  ∧ (∀ code ∈ CreditSecurity.generateBackupCodes count rand,
      code.length = 16 ∧ code.toList.all CreditSecurity.isHexUpper = true)
  ∧ CreditManager.generateBackupCodes rand
      = CreditSecurity.generateBackupCodes 5 rand
  ∧ (CreditManager.generateBackupCodes rand).length = 5 := by
  refine ⟨by simp [CreditSecurity.generateBackupCodes], ?_, rfl,
    by simp [CreditManager.generateBackupCodes, CreditSecurity.generateBackupCodes]⟩
  intro code hcode
  simp only [CreditSecurity.generateBackupCodes, List.mem_map] at hcode
  obtain ⟨i, -, rfl⟩ := hcode
  exact backupCode_format rand hr i

/-- C9 witness: with the zero random source, the manager's batch has 5
codes of the required shape. -/
theorem generateBackupCodes_count_and_format_witness :
    (CreditSecurity.generateBackupCodes 5 (fun _ => 0)).length = 5
  ∧ (∀ code ∈ CreditSecurity.generateBackupCodes 5 (fun _ => 0),
      code.length = 16 ∧ code.toList.all CreditSecurity.isHexUpper = true) := by
  have h := generateBackupCodes_count_and_format 5 (fun _ => 0)
    (fun _ => by norm_num)
  exact ⟨h.1, h.2.1⟩

/-! ## Claim C4 -/

/-- C4: for every cost and starting balance, if `hasSufficientCredits cost`
is `false` then `deductCredits(cost, operation, metadata)` fails with the
insufficiency error and causes no state change — the in-memory state and
the persisted store (balance record and transaction log) are returned
unchanged. -/
theorem deductCredits_insufficient_no_state_change
    (s : CreditManager.CMState) (store : CreditManager.StoreState)
    (cost : Int) (operation : String)
    (saveOut logOut : CreditStorage.StoreOutcome)
    (h : CreditManager.hasSufficientCredits s cost = false) :
    CreditManager.deductCredits s store cost operation saveOut logOut
      = (.error ("Insufficient credits. Required: " ++ toString cost
          ++ ", Available: " ++ toString s.currentBalance), s, store) := by
  simp [CreditManager.deductCredits, h]

/-- C4 witness: the spec scenario — balance `3`,
`deductCredits(7, 'translate')` fails with insufficiency and neither the
in-memory state nor the store changes. -/
theorem deductCredits_insufficient_no_state_change_witness :
    CreditManager.deductCredits ⟨3, some "fp", true⟩ ⟨some 3, []⟩ 7 "translate"
        .ok .ok
      = (.error ("Insufficient credits. Required: " ++ toString (7 : Int)
          ++ ", Available: " ++ toString (3 : Int)),
         ⟨3, some "fp", true⟩, ⟨some 3, []⟩) :=
  deductCredits_insufficient_no_state_change ⟨3, some "fp", true⟩ ⟨some 3, []⟩
    7 "translate" .ok .ok (by decide)

/-! ## Claim C5 -/

/-- C5: the Ledger Store's balance read signals three mutually distinct
outcomes: `absent` resolves the distinguished `ok none`, a decryption
failure rejects with the decryption error, an integrity mismatch rejects
with the integrity error, and the three results are pairwise distinct at
the store boundary. -/
theorem getCreditBalance_distinguishes_failures {Cipher : Type}
    (decrypt : Cipher → Option CreditSecurity.BalanceRecord)
    (verify : CreditSecurity.BalanceRecord → String → Bool) :
    (CreditStorage.getCreditBalance decrypt verify .absent = .ok none)
  ∧ (∀ data, decrypt data = none →
      CreditStorage.getCreditBalance decrypt verify (.found data) = .errDecrypt)
  ∧ (∀ data record, decrypt data = some record →
      verify record record.integrityHash = false →
      CreditStorage.getCreditBalance decrypt verify (.found data) = .errIntegrity)
  ∧ (CreditStorage.GetBalanceResult.ok none ≠ .errDecrypt)
  ∧ (CreditStorage.GetBalanceResult.ok none ≠ .errIntegrity)
  ∧ (CreditStorage.GetBalanceResult.errDecrypt ≠ .errIntegrity) := by
  refine ⟨rfl, ?_, ?_, by decide, by decide, by decide⟩
  · intro data hdec
    simp [CreditStorage.getCreditBalance, hdec]
  · intro data record hdec hver
    simp [CreditStorage.getCreditBalance, hdec, hver]

/-- C5 witness: with a decryption oracle that always fails, a found
record rejects with the decryption error (and not with the absent
result). -/
theorem getCreditBalance_distinguishes_failures_witness :
    @CreditStorage.getCreditBalance Unit (fun _ => none)
        (fun _ _ => true) (.found ()) = .errDecrypt :=
  (getCreditBalance_distinguishes_failures (fun _ => none)
    (fun _ _ => true)).2.1 () rfl

/-! ## Claim C6 -/

/-- C6 counterexample: an ill-shaped `iv` field whose `ToNumber` value
is `-1` — the number `-1` or the string `"-1"` — makes
`new Uint8Array(encryptedData.iv)`, which line 122 executes before
entering the `try` block, throw a `RangeError` (invalid typed-array
length) that escapes `decryptData`, whatever the cipher and parser
oracles do; a length truncating to `2^53` throws the same way. -/
theorem decryptData_negative_length_throws :
    CreditSecurity.decryptData (fun _ _ => none) (fun _ => none)
        (some ⟨.num (.finite (-1)), .arr []⟩)
      = .error .rangeError
  ∧ CreditSecurity.decryptData (fun _ _ => none) (fun _ => none)
        (some ⟨.num (.finite (2 ^ 53)), .arr []⟩)
      = .error .rangeError :=
  ⟨rfl, rfl⟩

/-- C6 amended: for every object input whose `iv` and `encrypted` fields
the `Uint8Array` conversion accepts — absent (`undefined`/`null`)
fields, numeric arrays, and primitives whose `ToNumber` value is `NaN`
(such as the string `"abc"`, an empty array of bytes, not a usable
nonce) or truncates into `[0, 2^53)` — and every behaviour of the
AES-GCM and JSON oracles, `decryptData` returns normally, and when
decryption fails (auth-tag mismatch) it returns the sentinel `null`;
but an exception escapes for a conversion-rejected field value (a
primitive truncating below `0` or to `2^53` and beyond, or an infinity)
and for a `null`/`undefined` argument, because lines 122-123 run before
the `try` block. -/
theorem decryptData_never_throws_amended
    (aesDecrypt : List Nat → List Nat → Option String)
    (parse : String → Option CreditSecurity.BalanceRecord)
    (payload : CreditSecurity.EncPayload) (iv encrypted : List Nat)
    (hiv : CreditSecurity.toUint8Array payload.iv = .ok iv)
    (henc : CreditSecurity.toUint8Array payload.encrypted = .ok encrypted) :
    (∃ r, CreditSecurity.decryptData aesDecrypt parse (some payload) = .ok r)
  ∧ (aesDecrypt iv encrypted = none →
      CreditSecurity.decryptData aesDecrypt parse (some payload) = .ok none) := by
  constructor
  · unfold CreditSecurity.decryptData
    cases haes : aesDecrypt iv encrypted with
    | none => exact ⟨none, by simp [hiv, henc, haes]⟩
    | some txt =>
      cases hp : parse txt with
      | none => exact ⟨none, by simp [hiv, henc, haes, hp]⟩
      | some d => exact ⟨some d, by simp [hiv, henc, haes, hp]⟩
  · intro haes
    simp [CreditSecurity.decryptData, hiv, henc, haes]

/-- C6 amended witness: a payload with both fields absent, under an
always-failing cipher oracle, yields the `null` sentinel without
throwing. -/
theorem decryptData_never_throws_amended_witness :
    CreditSecurity.decryptData (fun _ _ => none) (fun _ => none)
      (some ⟨.absent, .absent⟩) = .ok none :=
  (decryptData_never_throws_amended (fun _ _ => none) (fun _ => none)
    ⟨.absent, .absent⟩ [] [] rfl rfl).2 rfl

/-! ## Claim C10 -/

/-- C10: integrity hashing and verification ignore the record's stored
`deviceFingerprint` field — for two records that differ only in that
field (all of `balance`, `timestamp`, `lastModified`, `integrityHash`
equal), `createIntegrityHash` produces the same digest and
`verifyIntegrity` the same result, because the hash preimage uses the
live device fingerprint. -/
theorem createIntegrityHash_ignores_stored_fingerprint
    (hash : String → String) (liveFp : String)
    (r1 r2 : CreditSecurity.BalanceRecord)
    (hbal : r1.balance = r2.balance) (hts : r1.timestamp = r2.timestamp)
    (hlm : r1.lastModified = r2.lastModified)
    (hih : r1.integrityHash = r2.integrityHash) :
    CreditSecurity.createIntegrityHash hash liveFp r1
      = CreditSecurity.createIntegrityHash hash liveFp r2
  ∧ ∀ expectedHash, CreditSecurity.verifyIntegrity hash liveFp r1 expectedHash
      = CreditSecurity.verifyIntegrity hash liveFp r2 expectedHash := by
  constructor
  · simp [CreditSecurity.createIntegrityHash, hbal, hts]
  · intro expectedHash
    simp [CreditSecurity.verifyIntegrity, CreditSecurity.createIntegrityHash,
      hbal, hts]

/-- C10 witness: two records equal except for their stored
`deviceFingerprint` hash and verify identically. -/
theorem createIntegrityHash_ignores_stored_fingerprint_witness :
    CreditSecurity.createIntegrityHash (fun s => s) "liveFp"
        ⟨42, "fingerprintA", 1000, 1000, "h"⟩
      = CreditSecurity.createIntegrityHash (fun s => s) "liveFp"
        ⟨42, "fingerprintB", 1000, 1000, "h"⟩ :=
  (createIntegrityHash_ignores_stored_fingerprint (fun s => s) "liveFp"
    ⟨42, "fingerprintA", 1000, 1000, "h"⟩ ⟨42, "fingerprintB", 1000, 1000, "h"⟩
    rfl rfl rfl rfl).1

/-! ## Claim C1 -/

/-- C1 counterexample: from balance 10 in sync with the persisted
record, `deductCredits(3, 'translate')` with a successful balance save
but a failed transaction-log append throws, rolls the in-memory balance
back to 10, yet leaves the persisted record at 7: the in-memory value
does not equal the last successfully persisted balance and does not
reflect the persisted change. -/
theorem deductCredits_log_failure_divergence :
    CreditManager.deductCredits ⟨10, some "fp", true⟩ ⟨some 10, []⟩ 3
        "translate" .ok .fail
      = (.error "Failed to deduct credits: Failed to log transaction",
         ⟨10, some "fp", true⟩, ⟨some 7, []⟩)
  ∧ (10 : Int) ≠ 7 :=
  ⟨rfl, by decide⟩

/-- C1 amended: starting from a state whose in-memory balance equals the
persisted balance, `deductCredits`/`addCredits` preserve the
no-divergence invariant when the balance save itself fails (full
rollback) and when both persists succeed; but when only the
transaction-log append fails after a successful balance save, the
persisted balance change stands while the in-memory value is rolled
back to its previous value — in-memory and persisted state diverge by
exactly the mutation amount until the next load. -/
theorem mutation_rollback_sync_amended
    (s : CreditManager.CMState) (store : CreditManager.StoreState)
    (cost amount : Int) (operation source : String)
    (hsuff : CreditManager.hasSufficientCredits s cost = true)
    (hsync : store.balance = some s.currentBalance) :
    (∀ logOut, (CreditManager.deductCredits s store cost operation .fail
        logOut).2.2.balance
      = some (CreditManager.deductCredits s store cost operation .fail
          logOut).2.1.currentBalance)
  ∧ ((CreditManager.deductCredits s store cost operation .ok .ok).2.2.balance
      = some (CreditManager.deductCredits s store cost operation
          .ok .ok).2.1.currentBalance)
  ∧ ((CreditManager.deductCredits s store cost operation
        .ok .fail).2.1.currentBalance = s.currentBalance
     ∧ (CreditManager.deductCredits s store cost operation
          .ok .fail).2.2.balance = some (s.currentBalance - cost))
  ∧ (∀ logOut, (CreditManager.addCredits s store amount source .fail
        logOut).2.2.balance
      = some (CreditManager.addCredits s store amount source .fail
          logOut).2.1.currentBalance)
  ∧ ((CreditManager.addCredits s store amount source .ok .ok).2.2.balance
      = some (CreditManager.addCredits s store amount source
          .ok .ok).2.1.currentBalance)
  ∧ ((CreditManager.addCredits s store amount source
        .ok .fail).2.1.currentBalance = s.currentBalance
     ∧ (CreditManager.addCredits s store amount source
          .ok .fail).2.2.balance = some (s.currentBalance + amount)) := by
  refine ⟨?_, ?_, ⟨?_, ?_⟩, ?_, ?_, ⟨?_, ?_⟩⟩ <;>
    simp [CreditManager.deductCredits, CreditManager.addCredits, hsuff, hsync]

/-- C1 amended witness: balance 10 synced with the store; the
log-append-failure run of `deductCredits(3)` leaves in-memory 10 and
persisted 7. -/
theorem mutation_rollback_sync_amended_witness :
    (CreditManager.deductCredits ⟨10, some "fp", true⟩ ⟨some 10, []⟩ 3
        "translate" .ok .fail).2.1.currentBalance = 10
  ∧ (CreditManager.deductCredits ⟨10, some "fp", true⟩ ⟨some 10, []⟩ 3
        "translate" .ok .fail).2.2.balance = some 7 :=
  (mutation_rollback_sync_amended ⟨10, some "fp", true⟩ ⟨some 10, []⟩ 3 5
    "translate" "purchase" (by decide) rfl).2.2.1

/-! ## Claim C2 -/

/-- C2 counterexample: from balance 0, `addCredits(-1, 'demo')` with
both persists succeeding completes successfully and leaves the balance
at `-1 < 0`; no guard rejects the negative amount. -/
theorem addCredits_negative_balance :
    CreditManager.addCredits ⟨0, some "fp", true⟩ ⟨some 0, []⟩ (-1) "demo"
        .ok .ok
      = (.ok ⟨0, -1, -1⟩, ⟨-1, some "fp", true⟩,
         ⟨some (-1), [⟨"purchase", -1, "demo", 0, -1⟩]⟩)
  ∧ ¬(0 : Int) ≤ -1 :=
  ⟨rfl, by decide⟩

/-- Every catalog package carries a non-negative credit amount. -/
lemma packageCredits_nonneg (packageKey : String) (credits : Int)
    (h : CreditManager.packageCredits packageKey = some credits) :
    0 ≤ credits := by
  unfold CreditManager.packageCredits at h
  split at h <;> simp_all <;> omega

/-- `addCredits` with a non-negative amount keeps the cached balance
non-negative on every persistence outcome. -/
lemma addCredits_nonneg (s : CreditManager.CMState)
    (store : CreditManager.StoreState) (amount : Int) (source : String)
    (saveOut logOut : CreditStorage.StoreOutcome)
    (h0 : 0 ≤ s.currentBalance) (ha : 0 ≤ amount) :
    0 ≤ (CreditManager.addCredits s store amount source saveOut
        logOut).2.1.currentBalance := by
  cases saveOut <;> cases logOut <;>
    simp [CreditManager.addCredits] <;> omega

/-- One balance-safe mutation preserves a non-negative cached balance. -/
lemma runOp_nonneg (p : CreditManager.CMState × CreditManager.StoreState)
    (op : CreditManager.CMOp) (h0 : 0 ≤ p.1.currentBalance)
    (hwf : CreditManager.wfOp op) :
    0 ≤ (CreditManager.runOp p op).1.currentBalance := by
  cases op with
  | deduct cost operation saveOut logOut =>
    unfold CreditManager.runOp CreditManager.deductCredits
    cases hs : CreditManager.hasSufficientCredits p.1 cost with
    | false => simpa [hs] using h0
    | true =>
      have hcost : cost ≤ p.1.currentBalance := by
        simpa [CreditManager.hasSufficientCredits] using hs
      cases saveOut <;> cases logOut <;> simp [hs] <;> omega
  | add amount source saveOut logOut =>
    exact addCredits_nonneg p.1 p.2 amount source saveOut logOut h0 hwf
  | reset newBalance saveOut logOut =>
    have hnb : 0 ≤ newBalance := hwf
    unfold CreditManager.runOp CreditManager.resetCredits
    cases saveOut <;> cases logOut <;> simpa using hnb
  | purchase packageKey paymentMethod saveOut logOut =>
    unfold CreditManager.runOp CreditManager.purchaseCredits
    cases hpk : CreditManager.packageCredits packageKey with
    | none => simpa [hpk] using h0
    | some credits =>
      have hc := packageCredits_nonneg packageKey credits hpk
      cases hd : (paymentMethod == "demo") with
      | false => simpa [hpk, hd] using h0
      | true =>
        simp only [hpk, hd, if_true]
        exact addCredits_nonneg p.1 p.2 credits "purchase" saveOut logOut h0 hc
  | clear clearOut =>
    unfold CreditManager.runOp CreditManager.clearAllData
    cases clearOut <;> simpa using h0

/-- C2 amended: the claim fails for arbitrary integer arguments (see the
counterexample), but holds for every sequence of mutations in which each
`addCredits` amount and each `resetCredits` target is non-negative
(`deductCredits`, `purchaseCredits` and `clearAllData` need no
restriction): starting from a non-negative balance, the cached balance
is non-negative after every mutation, completed or failed. -/
theorem balance_nonneg_invariant_amended (ops : List CreditManager.CMOp)
    (p : CreditManager.CMState × CreditManager.StoreState)
    (h0 : 0 ≤ p.1.currentBalance)
    (hwf : ∀ op ∈ ops, CreditManager.wfOp op) :
    0 ≤ (CreditManager.runOps ops p).1.currentBalance := by
  induction ops generalizing p with
  | nil => simpa [CreditManager.runOps] using h0
  | cons op rest ih =>
    simp only [CreditManager.runOps, List.foldl_cons]
    exact ih (CreditManager.runOp p op)
      (runOp_nonneg p op h0 (hwf op (by simp)))
      (fun o ho => hwf o (by simp [ho]))

/-- C2 amended witness: the spec's purchase-then-translate scenario run
from a fresh zero balance stays non-negative. -/
theorem balance_nonneg_invariant_amended_witness :
    0 ≤ (CreditManager.runOps
        [.add 100 "purchase" .ok .ok, .deduct 7 "translate" .ok .ok]
        (⟨0, some "fp", true⟩, ⟨some 0, []⟩)).1.currentBalance := by
  apply balance_nonneg_invariant_amended _ _ (by norm_num)
  intro op hop
  simp only [List.mem_cons, List.not_mem_nil, or_false] at hop
  rcases hop with rfl | rfl
  · norm_num [CreditManager.wfOp]
  · trivial

/-! ## Claim C3 -/

/-- C3 counterexample: with balance 10 and a confirmed 'translate'
operation, a wrapped function that rejects on its first invocation with
a non-credit error ("network error") and resolves on its second is
silently retried by the `catch` block: the wrapper returns the retry's
successful result instead of propagating the first failure. -/
theorem wrapFunctionCall_swallows_failure :
    (fun n => if n = 0 then CreditIntegration.FOut.thr "network error"
        else CreditIntegration.FOut.ret (some "hola")) 0
      = CreditIntegration.FOut.thr "network error"
  ∧ CreditIntegration.wrapFunctionCall "translate" ⟨10, some "fp", true⟩
      ⟨some 10, []⟩ true
      (fun n => if n = 0 then CreditIntegration.FOut.thr "network error"
        else CreditIntegration.FOut.ret (some "hola")) .ok .ok
      = (.ret (some "hola"), ⟨10, some "fp", true⟩, ⟨some 10, []⟩) :=
  ⟨rfl, rfl⟩

/-- C3 amended: when the wrapped function's first invocation fails, no
credits are ever deducted (manager and store are returned unchanged in
every such path), but propagation is conditional: an error whose message
mentions credits is rethrown immediately; any other error triggers a
silent second invocation of `f`, whose failure is then propagated — and
whose success is returned to the caller, swallowing the original
failure. -/
theorem wrapFunctionCall_failure_amended {Val : Type} (operation : String)
    (cost : Int) (cm : CreditManager.CMState)
    (store : CreditManager.StoreState) (f : Nat → CreditIntegration.FOut Val)
    (saveOut logOut : CreditStorage.StoreOutcome) (msg : String)
    (hcost : CreditManager.getCost operation = .ok cost)
    (hsuff : CreditManager.hasSufficientCredits cm cost = true)
    (hf : f 0 = .thr msg) :
    (CreditIntegration.mentionsCredits msg = true →
      CreditIntegration.wrapFunctionCall operation cm store true f saveOut logOut
        = (.thr msg, cm, store))
  ∧ (CreditIntegration.mentionsCredits msg = false →
      ∀ msg2, f 1 = .thr msg2 →
        CreditIntegration.wrapFunctionCall operation cm store true f saveOut logOut
          = (.thr msg2, cm, store))
  ∧ (CreditIntegration.mentionsCredits msg = false →
      ∀ v, f 1 = .ret v →
        CreditIntegration.wrapFunctionCall operation cm store true f saveOut logOut
          = (.ret v, cm, store)) := by
  refine ⟨?_, ?_, ?_⟩
  · intro hm
    simp [CreditIntegration.wrapFunctionCall, hcost, hsuff, hf,
      CreditIntegration.wrapCatch, hm]
  · intro hm msg2 hf2
    simp [CreditIntegration.wrapFunctionCall, hcost, hsuff, hf,
      CreditIntegration.wrapCatch, hm, hf2]
  · intro hm v hf2
    simp [CreditIntegration.wrapFunctionCall, hcost, hsuff, hf,
      CreditIntegration.wrapCatch, hm, hf2]

/-- C3 amended witness: a deterministically failing non-credit function
propagates the second invocation's error with no deduction. -/
theorem wrapFunctionCall_failure_amended_witness :
    CreditIntegration.wrapFunctionCall "translate" ⟨10, some "fp", true⟩
        ⟨some 10, []⟩ true
        (fun n => CreditIntegration.FOut.thr
          (if n = 0 then "boom" else "boom again") : Nat → CreditIntegration.FOut String)
        .ok .ok
      = (.thr "boom again", ⟨10, some "fp", true⟩, ⟨some 10, []⟩) :=
  (wrapFunctionCall_failure_amended "translate" 7 ⟨10, some "fp", true⟩
    ⟨some 10, []⟩ _ .ok .ok "boom" rfl (by decide) rfl).2.1 (by decide)
    "boom again" rfl
